import Mathlib

set_option maxRecDepth 10000

namespace ErrorHandling

/-! Shallow embedding of `resources/js/Pages/error-handling.js`: the page
metadata (`meta`), the two arrays of tabbed code examples (with the
`dedent-js` template processing applied, as at module load), the markup tree
returned by the `Page` component, and `Page.layout`. -/

/-- Characters treated as indentation by the dedent-js tag (`[\t ]` in its
regular expressions): a space or a tab. -/
def isIndentChar (c : Char) : Bool := c = ' ' || c = '\t'

/-- Length of the leading run of indentation characters of a line. -/
def indentRun (cs : List Char) : Nat := (cs.takeWhile isIndentChar).length

/-- Whether a line consists only of indentation characters (an empty line
qualifies, matching the `[\t ]*` of dedent-js step 1). -/
def allIndent (cs : List Char) : Bool := cs.all isIndentChar

/-- Split a character list at every newline character; always returns at
least one (possibly empty) segment, and the segments joined back with
newlines give the input. -/
def splitLines : List Char → List (List Char)
  | [] => [[]]
  | c :: rest =>
    let r := splitLines rest
    if c = '\n' then [] :: r
    else
      match r with
      | [] => [[c]]
      | l :: ls => (c :: l) :: ls

/-- Join segments back with a newline between consecutive segments. -/
def joinLines : List (List Char) → List Char
  | [] => []
  | [l] => l
  | l :: ls => l ++ '\n' :: joinLines ls

/-- The smallest positive indentation run among the given lines (dedent-js
step 2: the minimum, over every match of the pattern newline-then-indentation,
of the length of the indentation run); `none` when no line starts with
indentation. -/
def minIndent : List (List Char) → Option Nat
  | [] => none
  | l :: ls =>
    let rest := minIndent ls
    let r := indentRun l
    if r = 0 then rest
    else
      match rest with
      | none => some r
      | some m => some (Nat.min r m)

/-- Model of the `dedent` tag of the dedent-js package (a dependency of the
source file, not part of this repository), specialised to the way this module
uses it: a single template string with no interpolation values and no carriage
returns. Steps follow dedent-js: (1) remove a trailing newline followed only
by indentation, (2) take the smallest indentation run that follows a newline,
(3) remove that many indentation characters after each newline that carries at
least that many, (4) remove a leading newline. -/
def dedent (s : String) : String :=
  let segs := splitLines s.data
  let segs1 :=
    match segs.getLast? with
    | none => segs
    | some last => if 2 ≤ segs.length && allIndent last then segs.dropLast else segs
  let segs3 :=
    match minIndent (segs1.drop 1), segs1 with
    | some size, s0 :: rest =>
      s0 :: rest.map (fun l => if size ≤ indentRun l then l.drop size else l)
    | _, _ => segs1
  let segs4 :=
    match segs3 with
    | [] :: l :: ls => l :: ls
    | _ => segs3
  String.mk (joinLines segs4)

/-- A newline, the separator the raw template strings below are rebuilt
with. -/
def newlineStr : String := "\n"

/-- The cooked template string of the Laravel example (source lines 50-73): each source line with its indentation, escaped newlines expanded. -/
def rawLaravel : String := String.intercalate newlineStr [
  "",
  "              use Throwable;",
  "              use Inertia\\Inertia;",
  "",
  "              /**",
  "               * Prepare exception for rendering.",
  "               *",
  "               * @param  \\Throwable  $e",
  "               * @return \\Throwable",
  "               */",
  "              public function render($request, Throwable $e)",
  "              \x7b",
  "                  $response = parent::render($request, $e);",
  "",
  "                  if (!app()->environment([\x27local\x27, \x27testing\x27]) && in_array($response->getStatusCode(), [500, 503, 404, 403])) \x7b",
  "                      return Inertia::render(\x27Error\x27, [\x27status\x27 => $response->getStatusCode()])",
  "                          ->toResponse($request)",
  "                          ->setStatusCode($response->getStatusCode());",
  "                  \x7d else if ($response->getStatusCode() === 419) \x7b",
  "                      return back()->with([",
  "                          \x27message\x27 => \x27The page expired, please try again.\x27,",
  "                      ]);",
  "                  \x7d",
  "",
  "                  return $response;",
  "              \x7d",
  "            "
]

/-- The cooked template string of the Rails example (source lines 78-80). -/
def rawRails : String := String.intercalate newlineStr [
  "",
  "              # todo",
  "            "
]

/-- The cooked template string of the Vue 2 example (source lines 93-125). -/
def rawVue2 : String := String.intercalate newlineStr [
  "",
  "              <template>",
  "                <div>",
  "                  <H1>\x7b\x7b title \x7d\x7d</H1>",
  "                  <div>\x7b\x7b description \x7d\x7d</div>",
  "                </div>",
  "              </template>",
  "",
  "              <script>",
  "              export default \x7b",
  "                props: \x7b",
  "                  status: Number,",
  "                \x7d,",
  "                computed: \x7b",
  "                  title() \x7b",
  "                    return \x7b",
  "                      503: \x27503: Service Unavailable\x27,",
  "                      500: \x27500: Server Error\x27,",
  "                      404: \x27404: Page Not Found\x27,",
  "                      403: \x27403: Forbidden\x27,",
  "                    \x7d[this.status]",
  "                  \x7d,",
  "                  description() \x7b",
  "                    return \x7b",
  "                      503: \x27Sorry, we are doing some maintenance. Please check back soon.\x27,",
  "                      500: \x27Whoops, something went wrong on our servers.\x27,",
  "                      404: \x27Sorry, the page you are looking for could not be found.\x27,",
  "                      403: \x27Sorry, you are forbidden from accessing this page.\x27,",
  "                    \x7d[this.status]",
  "                  \x7d,",
  "                \x7d,",
  "              \x7d",
  "              </script>",
  "            "
]

/-- The cooked template string of the Vue 3 example (source lines 130-162). -/
def rawVue3 : String := String.intercalate newlineStr [
  "",
  "              <template>",
  "                <div>",
  "                  <H1>\x7b\x7b title \x7d\x7d</H1>",
  "                  <div>\x7b\x7b description \x7d\x7d</div>",
  "                </div>",
  "              </template>",
  "",
  "              <script>",
  "              export default \x7b",
  "                props: \x7b",
  "                  status: Number,",
  "                \x7d,",
  "                computed: \x7b",
  "                  title() \x7b",
  "                    return \x7b",
  "                      503: \x27503: Service Unavailable\x27,",
  "                      500: \x27500: Server Error\x27,",
  "                      404: \x27404: Page Not Found\x27,",
  "                      403: \x27403: Forbidden\x27,",
  "                    \x7d[this.status]",
  "                  \x7d,",
  "                  description() \x7b",
  "                    return \x7b",
  "                      503: \x27Sorry, we are doing some maintenance. Please check back soon.\x27,",
  "                      500: \x27Whoops, something went wrong on our servers.\x27,",
  "                      404: \x27Sorry, the page you are looking for could not be found.\x27,",
  "                      403: \x27Sorry, you are forbidden from accessing this page.\x27,",
  "                    \x7d[this.status]",
  "                  \x7d,",
  "                \x7d,",
  "              \x7d",
  "              </script>",
  "            "
]

/-- The cooked template string of the React example (source lines 167-189). -/
def rawReact : String := String.intercalate newlineStr [
  "",
  "              import React from \x27react\x27",
  "",
  "              export default function ErrorPage(\x7b status \x7d) \x7b",
  "                const title = \x7b",
  "                  503: \x27503: Service Unavailable\x27,",
  "                  500: \x27500: Server Error\x27,",
  "                  404: \x27404: Page Not Found\x27,",
  "                  403: \x27403: Forbidden\x27,",
  "                \x7d[status]",
  "",
  "                const description = \x7b",
  "                  503: \x27Sorry, we are doing some maintenance. Please check back soon.\x27,",
  "                  500: \x27Whoops, something went wrong on our servers.\x27,",
  "                  404: \x27Sorry, the page you are looking for could not be found.\x27,",
  "                  403: \x27Sorry, you are forbidden from accessing this page.\x27,",
  "                \x7d[status]",
  "",
  "                return (",
  "                  <div>",
  "                    <H1>\x7btitle\x7d</H1>",
  "                    <div>\x7bdescription\x7d</div>",
  "                  </div>",
  "                )",
  "              \x7d",
  "            "
]

/-- The cooked template string of the Svelte example (source lines 194-214). -/
def rawSvelte : String := String.intercalate newlineStr [
  "",
  "              <script>",
  "                export let status",
  "",
  "                $: title = \x7b",
  "                  503: \x27503: Service Unavailable\x27,",
  "                  500: \x27500: Server Error\x27,",
  "                  404: \x27404: Page Not Found\x27,",
  "                  403: \x27403: Forbidden\x27,",
  "                \x7d[status]",
  "",
  "                $: description = \x7b",
  "                  503: \x27Sorry, we are doing some maintenance. Please check back soon.\x27,",
  "                  500: \x27Whoops, something went wrong on our servers.\x27,",
  "                  404: \x27Sorry, the page you are looking for could not be found.\x27,",
  "                  403: \x27Sorry, you are forbidden from accessing this page.\x27,",
  "                \x7d[status]",
  "              </script>",
  "",
  "              <div>",
  "                <H1>\x7btitle\x7d</H1>",
  "                <div>\x7bdescription\x7d</div>",
  "              </div>",
  "            "
]

/-- The expected code text of the Laravel example, written out line by line
exactly as the spec's byte-for-byte content check reads it: the example's
source with the template's common indentation removed, escaped newlines
expanded to blank lines, and the leading and trailing newline stripped. -/
def laravelCodeLiteral : String := String.intercalate newlineStr [
  "use Throwable;",
  "use Inertia\\Inertia;",
  "",
  "/**",
  " * Prepare exception for rendering.",
  " *",
  " * @param  \\Throwable  $e",
  " * @return \\Throwable",
  " */",
  "public function render($request, Throwable $e)",
  "\x7b",
  "    $response = parent::render($request, $e);",
  "",
  "    if (!app()->environment([\x27local\x27, \x27testing\x27]) && in_array($response->getStatusCode(), [500, 503, 404, 403])) \x7b",
  "        return Inertia::render(\x27Error\x27, [\x27status\x27 => $response->getStatusCode()])",
  "            ->toResponse($request)",
  "            ->setStatusCode($response->getStatusCode());",
  "    \x7d else if ($response->getStatusCode() === 419) \x7b",
  "        return back()->with([",
  "            \x27message\x27 => \x27The page expired, please try again.\x27,",
  "        ]);",
  "    \x7d",
  "",
  "    return $response;",
  "\x7d"
]

/-- One entry of `meta.links` in the source: a url (anchor fragment) and a
display name. -/
structure Link where
  url : String
  name : String

/-- The `meta` configuration object of the source module: page title and
navigation links. -/
structure Meta where
  title : String
  links : List Link

/-- One example object passed to a `TabbedCode` component in the source:
`name`, `language`, an optional `description`, and the `code` text. -/
structure Example where
  name : String
  language : String
  description : Option String := none
  code : String

/-- The `meta` constant of the source module (lines 5-11). -/
def meta : Meta :=
  { title := "Error handling",
    links :=
      [ { url := "#development", name := "Development" },
        { url := "#production", name := "Production" } ] }

/-- The Laravel example of the first `TabbedCode` (source lines 46-74). -/
def laravelExample : Example :=
  { name := "Laravel",
    language := "php",
    description := some "Extend the render() method in your App\\Exceptions\\Handler.php.",
    code := dedent rawLaravel }

/-- The Rails example of the first `TabbedCode` (source lines 75-81). -/
def railsExample : Example :=
  { name := "Rails", language := "ruby", code := dedent rawRails }

/-- The examples array of the first `TabbedCode` (server exception
handlers). -/
def serverExamples : List Example := [laravelExample, railsExample]

/-- The Vue 2 example of the second `TabbedCode` (source lines 90-126). -/
def vue2Example : Example :=
  { name := "Vue 2", language := "twig", code := dedent rawVue2 }

/-- The Vue 3 example of the second `TabbedCode` (source lines 127-163). -/
def vue3Example : Example :=
  { name := "Vue 3", language := "twig", code := dedent rawVue3 }

/-- The React example of the second `TabbedCode` (source lines 164-190). -/
def reactExample : Example :=
  { name := "React", language := "jsx", code := dedent rawReact }

/-- The Svelte example of the second `TabbedCode` (source lines 191-215). -/
def svelteExample : Example :=
  { name := "Svelte", language := "html", code := dedent rawSvelte }

/-- The examples array of the second `TabbedCode` (error page components). -/
def errorPageExamples : List Example :=
  [vue2Example, vue3Example, reactExample, svelteExample]

/-- All example objects passed to a `TabbedCode` component in the module, in
source order. -/
def allExamples : List Example := serverExamples ++ errorPageExamples

/-- Markup nodes the page is built from: the presentational components the
source imports (`A`, `H1`, `H2`, `Layout`, `Notice`, `P`, `TabbedCode`),
plain text, the raw `div` and `iframe` elements, and the JSX fragment. A
`div` carries its className, its style entries and its children; an `a` its
href and link text; a `layout` its child page and its meta prop. -/
inductive Node where
  | text : String → Node
  | h1 : String → Node
  | h2 : String → Node
  | p : List Node → Node
  | a : String → String → Node
  | div : String → List (String × String) → List Node → Node
  | iframe : String → String → Node
  | notice : List Node → Node
  | tabbedCode : List Example → Node
  | fragment : List Node → Node
  | layout : Node → Meta → Node

/-- The JSX fragment the source `Page` function returns (lines 14-219), with
JSX text runs collapsed to single spaces as the JSX transform does. -/
def pageBody : Node :=
  Node.fragment
    [ Node.h1 "Error handling",
      Node.h2 "Development",
      Node.p
        [ Node.text "One of the nice things about working with a server-side framework is the built-in exception handling you get for free. For example, Laravel ships with ",
          Node.a "https://github.com/facade/ignition" "Ignition",
          Node.text ", a beautiful error reporting tool which displays a nicely formatted stack trace in local development." ],
      Node.p
        [ Node.text "The challenge is, if you\x27re making an XHR request (which Inertia does), and you hit a server-side error, you\x27re typically left digging through the network tab in your browser\x27s devtools." ],
      Node.p
        [ Node.text "Inertia solves this by showing all non-Inertia responses in a modal. Meaning you get the same beautiful error-reporting, even though you\x27ve made that request over XHR!" ],
      Node.div "my-6 relative rounded overflow-hidden bg-gray-500" [("paddingTop", "80.5%")]
        [ Node.div "absolute inset-0 w-full h-full flex items-center justify-center text-sm" []
            [ Node.text "Loading…" ],
          Node.iframe "absolute inset-0 w-full h-full" "https://player.vimeo.com/video/363562630?autoplay=1&loop=1&muted=1&background=1" ],
      Node.notice
        [ Node.text "Note, the modal behaviour is only intended for development purposes." ],
      Node.h2 "Production",
      Node.p
        [ Node.text "In production you\x27ll want to return a proper Inertia error response instead of relying on the modal behaviour. To do this you\x27ll need to update your framework\x27s default exception handler to return a custom error page." ],
      Node.tabbedCode serverExamples,
      Node.p
        [ Node.text "Notice how we\x27re returning an \x60Error\x60 page component in the example above. You\x27ll need to actually create this. Here\x27s an example error page component you can use as a starting point." ],
      Node.tabbedCode errorPageExamples ]

/-- The `Page` arrow function of the source (lines 13-220): it declares no
parameter, so whatever argument the renderer passes is ignored and the same
fragment is returned. -/
def Page {α : Type} (_ : α) : Node := pageBody

/-- `Page.layout` of the source (line 222): wraps a page node in a `Layout`
element with `children` set to the page and `meta` set to the module's `meta`
constant. -/
def Page.layout (page : Node) : Node := Node.layout page meta

/-- The `children` prop of a `Layout` element, when the node is one. -/
def layoutChildren : Node → Option Node
  | Node.layout page _ => some page
  | _ => none

/-- The `meta` prop of a `Layout` element, when the node is one. -/
def layoutMeta : Node → Option Meta
  | Node.layout _ m => some m
  | _ => none

/-- The field names present on an example object literal in the source:
`name`, `language` and `code` always, `description` exactly when the literal
carries one. -/
def exampleFieldNames (e : Example) : List String :=
  ["name", "language"]
    ++ (match e.description with | some _ => ["description"] | none => [])
    ++ ["code"]

/-- Every display string of the module's structured data: the metadata title,
each link's url and name, and each example's name, language, description
(when present) and code. -/
def displayStrings : List String :=
  meta.title ::
    meta.links.map Link.url ++ meta.links.map Link.name
    ++ allExamples.map Example.name ++ allExamples.map Example.language
    ++ allExamples.filterMap Example.description ++ allExamples.map Example.code

/-- The module-level bindings of the source file, packaged as an explicit
state for the frame properties: the `meta` object and the two example
arrays. -/
structure ModuleData where
  meta : Meta
  serverExamples : List Example
  errorPageExamples : List Example

/-- The module data as evaluated at load. -/
def moduleData : ModuleData :=
  { meta := meta, serverExamples := serverExamples, errorPageExamples := errorPageExamples }

/-- Rendering the page as a state transformer: the source body of `Page`
contains no assignment to any module binding, so the state passes through
unchanged alongside the returned markup. -/
def renderPage {α : Type} (d : ModuleData) (props : α) : ModuleData × Node :=
  (d, Page props)

/-- Applying `Page.layout` as a state transformer: line 222 of the source
reads `meta` and writes nothing, so the state passes through unchanged. -/
def applyLayout (d : ModuleData) (page : Node) : ModuleData × Node :=
  (d, Page.layout page)

/-- Evaluating the module top level, with the error channel made explicit:
the source performs only object/array literal construction and `dedent`
tagged-template calls, none of which can throw, so evaluation always
succeeds. -/
def evalModule : Except String ModuleData := Except.ok moduleData

/-- Calling `Page`, with the error channel made explicit: the body is a
single JSX expression with no throw site. -/
def renderPageChecked {α : Type} (props : α) : Except String Node :=
  Except.ok (Page props)

/-- Calling `Page.layout`, with the error channel made explicit: the body is
a single JSX expression with no throw site. -/
def applyLayoutChecked (page : Node) : Except String Node :=
  Except.ok (Page.layout page)

/-- The direct children of the markup tree's top-level fragment. -/
def topLevelNodes : Node → List Node
  | Node.fragment ns => ns
  | n => [n]
/-- Claim C1: the module's navigation metadata `meta.links` contains exactly
two entries, whose url fields are `#development` and `#production` in that
order and whose name fields are `Development` and `Production`; the list
equality makes these the only anchor fragments the links metadata defines. -/
theorem meta_links_spec :
    meta.links = [{ url := "#development", name := "Development" },
                  { url := "#production", name := "Production" }] ∧
    meta.links.length = 2 ∧
    meta.links.map Link.url = ["#development", "#production"] ∧
    meta.links.map Link.name = ["Development", "Production"] :=
  ⟨rfl, rfl, rfl, rfl⟩

/-- Claim C2: the code text of the Laravel example object — the value of its
code field after the dedent template processing applied at module load — is
byte-for-byte the literal source text of that example. -/
theorem laravel_code_byte_exact : laravelExample.code = laravelCodeLiteral := by
  decide

/-- Claim C3: for every invocation, the markup tree returned by `Page` has a
top-level `H1` whose text is exactly `Error handling`, and the page metadata
title is the string `Error handling`. -/
theorem page_h1_title : ∀ {α : Type} (props : α),
    Node.h1 "Error handling" ∈ topLevelNodes (Page props) ∧
    meta.title = "Error handling" :=
  fun _ => ⟨List.mem_cons_self _ _, rfl⟩

/-- Claim C4: `Page` is a constant function: no argument affects its output,
so any two invocations (with arguments of any types) return identical markup
trees. -/
theorem page_constant : ∀ {α β : Type} (a : α) (b : β), Page a = Page b :=
  fun _ _ => rfl

/-- Claim C5: every example object passed to a `TabbedCode` component carries
the `name`, `language` and `code` fields, and the `description` field is
optional: present on at least one example and absent on at least one other. -/
theorem tabbed_examples_fields :
    (∀ e ∈ allExamples,
      "name" ∈ exampleFieldNames e ∧ "language" ∈ exampleFieldNames e ∧
        "code" ∈ exampleFieldNames e) ∧
    (∃ e ∈ allExamples, "description" ∈ exampleFieldNames e) ∧
    (∃ e ∈ allExamples, "description" ∉ exampleFieldNames e) := by
  decide

/-- Claim C6: every display string of the module's structured data — the
metadata title, each link's url and name, and each example's name, language,
description (when present) and code — is non-empty. -/
theorem display_strings_nonempty : ∀ s ∈ displayStrings, s ≠ "" := by
  decide

/-- Witness for C6 at a concrete input: the metadata title is a member and is
non-empty. -/
theorem display_strings_nonempty_witness : meta.title ≠ "" :=
  display_strings_nonempty meta.title (by decide)

/-- Claim C7: rendering the page and applying `Page.layout` leave the module
data unchanged, whatever state and arguments they run on — in particular on
the data evaluated at module load. -/
theorem module_data_frame : ∀ {α : Type} (d : ModuleData) (props : α) (page : Node),
    (renderPage d props).1 = d ∧ (applyLayout d page).1 = d ∧
    (renderPage moduleData props).1 = moduleData ∧
    (applyLayout moduleData page).1 = moduleData :=
  fun _ _ _ => ⟨rfl, rfl, rfl, rfl⟩

/-- Claim C8: no operation of the module is fallible: evaluating the
top-level data, calling `Page` and calling `Page.layout` always return a
value on the ok channel, for every input. -/
theorem operations_total :
    (∃ d, evalModule = Except.ok d) ∧
    (∀ {α : Type} (props : α), ∃ n, renderPageChecked props = Except.ok n) ∧
    (∀ page, ∃ n, applyLayoutChecked page = Except.ok n) :=
  ⟨⟨moduleData, rfl⟩, fun _ => ⟨pageBody, rfl⟩,
    fun page => ⟨Node.layout page meta, rfl⟩⟩

/-- Claim C9: the code strings of the Vue 2 and Vue 3 examples of the
error-page-component `TabbedCode` are character-for-character identical. -/
theorem vue_codes_equal : vue2Example.code = vue3Example.code := rfl

/-- Claim C10: for every page node, `Page.layout` returns a `Layout` element
whose children prop is exactly that node and whose meta prop is exactly the
module's `meta` constant. -/
theorem layout_passthrough : ∀ page : Node,
    layoutChildren (Page.layout page) = some page ∧
    layoutMeta (Page.layout page) = some meta :=
  fun _ => ⟨rfl, rfl⟩

end ErrorHandling
